import Mathlib

/-!
Shallow embedding of the WhatsApp bot's message-routing and referral core
(`bot/whatsapp_bot.py`, `utils/referrals_handler.py`, `database/customer.py`,
`database/referral.py`) together with theorems settling the specification
claims about it.
-/

namespace WhatsappAgent

/-! Character-list string primitives used to embed Python's `startswith`,
`endswith`, `in` (substring) and the referral regular expression. -/

abbrev Str := List Char

/-- Embeds Python `s.startswith(p)`. -/
def strStartsWith (s p : String) : Bool :=
  List.isPrefixOf p.toList s.toList

/-- Embeds Python `s.endswith(p)`. -/
def strEndsWith (s p : String) : Bool :=
  List.isSuffixOf p.toList s.toList

/-- Boolean infix test on character lists. -/
def hasInfixChars (p : Str) : Str → Bool
  | [] => List.isPrefixOf p []
  | c :: t => List.isPrefixOf p (c :: t) || hasInfixChars p t

/-- Embeds Python `p in s` (substring containment). -/
def strContains (s p : String) : Bool :=
  hasInfixChars p.toList s.toList

/-! Content-kind classification, from `WhatsappBot._log_customer_message`
(`bot/whatsapp_bot.py` lines 120-146).  The three branch guards are named
so that the claims of the spec can be stated about them. -/

/-- Guard of the image branch: `raw_message.startswith("![") and "](" in
raw_message and raw_message.endswith(")")`. -/
def imageShape (m : String) : Bool :=
  strStartsWith m "![" && strContains m "](" && strEndsWith m ")"

/-- Guard of the document branch: `raw_message.startswith("[") and "](" in
raw_message and raw_message.endswith(")")`. -/
def mdShape (m : String) : Bool :=
  strStartsWith m "[" && strContains m "](" && strEndsWith m ")"

/-- Guard of the audio-markdown branch: the document shape together with
`"Audio Message" in raw_message`. -/
def audioShape (m : String) : Bool :=
  mdShape m && strContains m "Audio Message"

/-- Embeds the `message_type` computation of
`WhatsappBot._log_customer_message`: the `is_voice` flag is tested first,
then the image, audio-markdown and document markdown shapes in that order. -/
def classify_message_type (is_voice : Bool) (raw_message : String) : String :=
  if is_voice then "audio"
  else if imageShape raw_message then "image"
  else if audioShape raw_message then "audio"
  else if mdShape raw_message then "document"
  else "text"

/-- Embeds the `message_type` computation of
`WhatsappBot.stream_to_web_socket` (`bot/whatsapp_bot.py` lines 357-386):
customer messages are classified by content shape (no voice flag is
available there), agent messages are always `"text"`. -/
def ws_message_type (sender : String) (message : String) : String :=
  if sender == "customer" then
    if imageShape message then "image"
    else if audioShape message then "audio"
    else if mdShape message then "document"
    else "text"
  else "text"

/-- Embeds the `message_type` stored by `WhatsappBot._log_agent_message`
(`bot/whatsapp_bot.py` lines 148-158): unconditionally `"text"`. -/
def agent_log_message_type (_response : String) : String := "text"

/-! Disjointness of the image and document shapes: a string starting with
`"!["` does not start with `"["`. -/

theorem isPrefixOf_bang_not_bracket (l : Str)
    (h : List.isPrefixOf ['!', '['] l = true) :
    List.isPrefixOf ['['] l = false := by
  cases l with
  | nil => simp [List.isPrefixOf] at h
  | cons c t =>
    simp only [List.isPrefixOf, Bool.and_eq_true, beq_iff_eq] at h
    have hc : c = '!' := h.1.symm
    subst hc
    have hne : ('[' == '!') = false := by decide
    simp [List.isPrefixOf, hne]

theorem imageShape_not_mdShape (m : String) (h : imageShape m = true) :
    mdShape m = false := by
  unfold imageShape at h
  unfold mdShape
  simp only [Bool.and_eq_true] at h
  have h1 : strStartsWith m "[" = false := by
    have hb : strStartsWith m "![" = true := h.1.1
    unfold strStartsWith at hb ⊢
    have e1 : ("![" : String).toList = ['!', '['] := rfl
    have e2 : ("[" : String).toList = ['['] := rfl
    rw [e1] at hb
    rw [e2]
    exact isPrefixOf_bang_not_bracket _ hb
  simp [h1]

theorem audioShape_not_imageShape (m : String) (h : audioShape m = true) :
    imageShape m = false := by
  unfold audioShape at h
  simp only [Bool.and_eq_true] at h
  by_cases hi : imageShape m = true
  · have := imageShape_not_mdShape m hi
    rw [this] at h
    exact absurd h.1 (by decide)
  · simpa using hi

theorem mdShape_not_imageShape (m : String) (h : mdShape m = true) :
    imageShape m = false := by
  by_cases hi : imageShape m = true
  · have := imageShape_not_mdShape m hi
    rw [this] at h
    exact absurd h (by decide)
  · simpa using hi

/-! Referral-code extraction, from `ReferralHandler._extract_codes`
(`utils/referrals_handler.py` lines 19-34): Python
`re.search(r"\(Referral code:\s*_([A-Z]{4})-([A-Z]{6})_\)", message)`,
returning the two captured groups of the first (leftmost) match, or
`(None, None)` when there is no match. -/

/-- Characters matched by the regex class `[A-Z]`. -/
def isUpperAZ (c : Char) : Bool := 'A' ≤ c && c ≤ 'Z'

/-- Characters matched by the regex class `\s` (modelled over the ASCII
whitespace characters space, tab, newline, carriage return, vertical tab
and form feed). -/
def isRegexSpace (c : Char) : Bool :=
  c == ' ' || c == '\t' || c == '\n' || c == '\r' ||
  c == Char.ofNat 11 || c == Char.ofNat 12

/-- Consumes exactly `n` characters, all in `A`-`Z`, returning them and the
rest of the input; `none` when fewer than `n` such characters lead. -/
def takeUpperN : Nat → Str → Option (Str × Str)
  | 0, l => some ([], l)
  | _ + 1, [] => none
  | n + 1, c :: t =>
    if isUpperAZ c then
      match takeUpperN n t with
      | some (w, rest) => some (c :: w, rest)
      | none => none
    else none

/-- Consumes a literal prefix, or fails. -/
def dropLit (p l : Str) : Option Str :=
  if List.isPrefixOf p l then some (l.drop p.length) else none

/-- Attempts the referral pattern at the head of `l`: the literal
`"(Referral code:"`, then `\s*` (greedy, and since `_` is not a whitespace
character the greedy run is the only possible one), then
`_([A-Z]{4})-([A-Z]{6})_)`.  Returns the two captured groups. -/
def matchCodesAt (l : Str) : Option (String × String) :=
  match dropLit "(Referral code:".toList l with
  | none => none
  | some l1 =>
    match l1.dropWhile isRegexSpace with
    | '_' :: l2 =>
      match takeUpperN 4 l2 with
      | none => none
      | some (camp, l3) =>
        match l3 with
        | '-' :: l4 =>
          match takeUpperN 6 l4 with
          | none => none
          | some (ref, l5) =>
            match l5 with
            | '_' :: ')' :: _ => some (String.mk camp, String.mk ref)
            | _ => none
        | _ => none
    | _ => none

/-- Leftmost-match search: tries `matchCodesAt` at each successive start
position, as `re.search` does. -/
def scanCodes : Str → Option String × Option String
  | [] => (none, none)
  | c :: t =>
    match matchCodesAt (c :: t) with
    | some (a, b) => (some a, some b)
    | none => scanCodes t

/-- Embeds `ReferralHandler._extract_codes`. -/
def _extract_codes (message : String) : Option String × Option String :=
  scanCodes message.toList

/-! The wrapper exactly as the claim words it: parentheses, the literal
label, colon, a SINGLE space, underscores, hyphen.  This is the spec-side
definition used to compare the claim against the code's `\s*` pattern. -/

/-- Decides whether the claim's exact literal wrapper
`(Referral code: _CCCC-RRRRRR_)` (with exactly one space after the colon)
starts at the head of `l`. -/
def specExactWrapperAt (l : Str) : Bool :=
  match dropLit "(Referral code: _".toList l with
  | none => false
  | some l2 =>
    match takeUpperN 4 l2 with
    | none => false
    | some (_, l3) =>
      match l3 with
      | '-' :: l4 =>
        match takeUpperN 6 l4 with
        | none => false
        | some (_, l5) =>
          match l5 with
          | '_' :: ')' :: _ => true
          | _ => false
      | _ => false

/-- Tests a predicate at every suffix of a character list. -/
def anySuffix (p : Str → Bool) : Str → Bool
  | [] => p []
  | c :: t => p (c :: t) || anySuffix p t

/-- Decides whether a string contains an occurrence of the claim's exact
single-space wrapper. -/
def hasSpecExactWrapper (s : String) : Bool :=
  anySuffix specExactWrapperAt s.toList

/-- When no start position matches the code's pattern, the leftmost-match
scan yields `(none, none)`. -/
theorem scanCodes_eq_none (l : Str)
    (h : ∀ i, i < l.length → matchCodesAt (l.drop i) = none) :
    scanCodes l = (none, none) := by
  induction l with
  | nil => rfl
  | cons c t ih =>
    have h0 : matchCodesAt (c :: t) = none := h 0 (by simp)
    have ht : ∀ i, i < t.length → matchCodesAt (t.drop i) = none := by
      intro i hi
      have := h (i + 1) (by simpa using Nat.succ_lt_succ hi)
      simpa using this
    simp [scanCodes, h0, ih ht]

/-- C3 counterexample: the string `"(Referral code:_ABCD-ABCDEF_)"` contains
no occurrence of the claim's exact literal wrapper (which demands a single
space after the colon), yet `_extract_codes` returns `("ABCD", "ABCDEF")`
rather than `(absent, absent)`: the code's pattern uses `\s*`, so zero
spaces also match. -/
theorem extract_codes_single_space_counterexample :
    hasSpecExactWrapper "(Referral code:_ABCD-ABCDEF_)" = false ∧
    _extract_codes "(Referral code:_ABCD-ABCDEF_)" =
      (some "ABCD", some "ABCDEF") := by
  constructor
  · decide
  · decide

/-- C3 (amended): referral-code extraction is a total function of the input
text; for every string in which the code's pattern — the literal wrapper
with ZERO OR MORE whitespace characters after the colon — matches at no
position, it returns `(absent, absent)`; the input
`"(Referral code: _ABCD-ABCDEF_)"` yields exactly `("ABCD", "ABCDEF")`;
matching is case-sensitive and only the first match counts. -/
theorem extract_codes_amended :
    (∀ s : String,
      (∀ i, i < s.toList.length → matchCodesAt (s.toList.drop i) = none) →
      _extract_codes s = (none, none)) ∧
    _extract_codes "(Referral code: _ABCD-ABCDEF_)" =
      (some "ABCD", some "ABCDEF") ∧
    _extract_codes "(Referral code: _abcd-abcdef_)" = (none, none) ∧
    _extract_codes "xx (Referral code: _AAAA-AAAAAA_) (Referral code: _BBBB-BBBBBB_)" =
      (some "AAAA", some "AAAAAA") := by
  refine ⟨fun s h => scanCodes_eq_none _ h, ?_, ?_, ?_⟩
  · decide
  · decide
  · decide

/-- C7 counterexample: for voice-flagged input with image-markdown content,
the code classifies `audio` (the voice flag is tested first), while the
claim's "image iff the content matches `![...](...)`" demands `image`. -/
theorem classify_voice_image_counterexample :
    ¬(classify_message_type true "![a](b)" = "image" ↔
      imageShape "![a](b)" = true) := by
  decide

/-- C7 (amended): content-kind classification is a pure function of the
content string and the voice flag; the kind is `image` iff the voice flag
is UNSET and the content matches `![...](...)`; `audio` iff the voice flag
is set or the content matches `[...](...)` containing `"Audio Message"`;
`document` iff the voice flag is unset and the content matches `[...](...)`
without `"Audio Message"`; and `text` in all remaining cases.  For each of
the four categories a conforming content classifies to exactly that
category. -/
theorem classify_message_type_characterization :
    (∀ (v : Bool) (m : String),
      (classify_message_type v m = "image" ↔ (!v && imageShape m) = true) ∧
      (classify_message_type v m = "audio" ↔ (v || audioShape m) = true) ∧
      (classify_message_type v m = "document" ↔
        (!v && mdShape m && !strContains m "Audio Message") = true) ∧
      (classify_message_type v m = "text" ↔
        (!v && !imageShape m && !mdShape m) = true)) ∧
    classify_message_type false "![a](b)" = "image" ∧
    classify_message_type true "x" = "audio" ∧
    classify_message_type false "[Audio Message](u)" = "audio" ∧
    classify_message_type false "[doc](u)" = "document" ∧
    classify_message_type false "hello" = "text" := by
  refine ⟨?_, by decide, by decide, by decide, by decide, by decide⟩
  intro v m
  cases v with
  | true => simp [classify_message_type]
  | false =>
    by_cases hi : imageShape m = true
    · have hmd := imageShape_not_mdShape m hi
      have ha : audioShape m = false := by
        unfold audioShape
        simp [hmd]
      simp [classify_message_type, hi, hmd, ha]
    · have hi' : imageShape m = false := by simpa using hi
      by_cases hm : mdShape m = true
      · by_cases hc : strContains m "Audio Message" = true
        · have ha : audioShape m = true := by
            unfold audioShape
            simp [hm, hc]
          simp [classify_message_type, hi', hm, hc, ha]
        · have hc' : strContains m "Audio Message" = false := by simpa using hc
          have ha : audioShape m = false := by
            unfold audioShape
            simp [hc']
          simp [classify_message_type, hi', hm, hc', ha]
      · have hm' : mdShape m = false := by simpa using hm
        have ha : audioShape m = false := by
          unfold audioShape
          simp [hm']
        simp [classify_message_type, hi', hm', ha]

/-- C8 counterexample: for the agent reply `"![a](b)"` the outbound leg
stores and broadcasts kind `text`, but the inbound classifier assigns
`image` to the same content — the §3 rule is not applied on the outbound
leg. -/
theorem agent_message_type_counterexample :
    agent_log_message_type "![a](b)" ≠ classify_message_type false "![a](b)" ∧
    ws_message_type "agent" "![a](b)" ≠ classify_message_type false "![a](b)" := by
  constructor
  · decide
  · decide

/-- C8 (amended): the outbound leg (agent reply logging and broadcast)
always assigns kind `text` — it does not apply the §3 rule; it agrees with
the inbound classifier exactly on contents the inbound rule classifies as
`text`.  The inbound broadcast leg, by contrast, does apply the same rule
as inbound logging (with the voice flag unset). -/
theorem agent_message_type_always_text :
    ∀ r : String,
      agent_log_message_type r = "text" ∧
      ws_message_type "agent" r = "text" ∧
      (agent_log_message_type r = classify_message_type false r ↔
        classify_message_type false r = "text") ∧
      ws_message_type "customer" r = classify_message_type false r := by
  intro r
  refine ⟨rfl, rfl, ?_, ?_⟩
  · constructor
    · intro h
      exact h.symm
    · intro h
      exact h.symm
  · rfl

/-! Referral ledger, from `ReferralDataBase`
(`src/whatsap_agent/database/referral.py`) and `ReferralHandler`
(`utils/referrals_handler.py`).  The record store is a map from referral
code to the stored value; `malformed` models a stored value on which schema
access raises (`ValidationError` or any other exception), which every
handler method catches without writing. -/

/-- One entry of `referred_users`, from `ReferredUserSchema`
(`schema/referrals.py`). -/
structure ReferredUser where
  phone_number : String
  time_stamp : String
deriving DecidableEq

/-- A referral record, from `ReferralSchema` (`schema/referrals.py`). -/
structure ReferralRecord where
  total_points : Nat
  referrer_id : Option String
  referrer_name : Option String
  referrer_email : Option String
  referrer_phone : Option String
  referral_code : Option String
  referred_users : List ReferredUser
  campaign_id : Option String
deriving DecidableEq

/-- What the store holds under one referral code. -/
inductive StoredReferral
  | missing
  | malformed
  | valid (r : ReferralRecord)
deriving DecidableEq

/-- The referral table, keyed by referral code. -/
abbrev ReferralDb := String → StoredReferral

/-- Embeds `ReferralDataBase.get_referral_by_code`. -/
def get_referral_by_code (db : ReferralDb) (referral_code : String) :
    StoredReferral :=
  db referral_code

/-- Embeds `ReferralHandler._check_existing_referral`
(`utils/referrals_handler.py` lines 36-58): `true` when the record is
missing, when reading it raises, or when `referred_users` contains an entry
whose `phone_number` equals the given address exactly. -/
def _check_existing_referral (db : ReferralDb)
    (phone_number referral_code : String) : Bool :=
  match get_referral_by_code db referral_code with
  | .missing => true
  | .malformed => true
  | .valid r => r.referred_users.any (fun u => u.phone_number == phone_number)

/-- Embeds `ReferralDataBase.add_referred_user`: fetches the record, appends
the referred user to its list and writes the list back.  When the record is
missing or malformed the fetch or the list access raises before the write,
so the store is unchanged. -/
def add_referred_user (db : ReferralDb) (referral_code : String)
    (u : ReferredUser) : ReferralDb :=
  match db referral_code with
  | .valid r =>
    fun c =>
      if c == referral_code then
        .valid { r with referred_users := r.referred_users ++ [u] }
      else db c
  | _ => db

/-- Embeds `ReferralDataBase.update_referral`: fetches the record and writes
`total_points` as the fetched value plus one.  Missing or malformed records
raise before the write. -/
def update_referral (db : ReferralDb) (referral_code : String) : ReferralDb :=
  match db referral_code with
  | .valid r =>
    fun c =>
      if c == referral_code then
        .valid { r with total_points := r.total_points + 1 }
      else db c
  | _ => db

/-- Embeds `ReferralHandler._increment_referral_count`
(`utils/referrals_handler.py` lines 84-106): adds the referred user, then
refetches; when the refetched record exists (and is readable) increments
`total_points` through `update_referral`. -/
def _increment_referral_count (db : ReferralDb)
    (referral_code phone_number time_stamp : String) : ReferralDb :=
  let db1 := add_referred_user db referral_code ⟨phone_number, time_stamp⟩
  match get_referral_by_code db1 referral_code with
  | .missing => db1
  | .malformed => db1
  | .valid _ => update_referral db1 referral_code

/-- Embeds the credit-check-then-credit portion of
`ReferralHandler.referral_workflow` (`utils/referrals_handler.py` lines
137-141): crediting happens only when `_check_existing_referral` is
`false`. -/
def referral_credit_step (db : ReferralDb)
    (phone_number referral_code time_stamp : String) : ReferralDb :=
  if _check_existing_referral db phone_number referral_code then db
  else _increment_referral_count db referral_code phone_number time_stamp

/-- On a stored, readable record, one crediting call appends exactly the one
new referred user and adds exactly one point; every other code's entry is
untouched. -/
theorem increment_valid_pointwise (db : ReferralDb) (code x ts : String)
    (r : ReferralRecord) (hr : db code = .valid r) (c : String) :
    _increment_referral_count db code x ts c =
      (if c == code then
        StoredReferral.valid
          { r with
            referred_users := r.referred_users ++ [⟨x, ts⟩],
            total_points := r.total_points + 1 }
      else db c) := by
  unfold _increment_referral_count add_referred_user get_referral_by_code
    update_referral
  rw [hr]
  simp only [beq_self_eq_true, if_true]
  by_cases hc : (c == code) = true
  · simp [hc]
  · simp only [Bool.not_eq_true] at hc
    simp [hc]

/-- When the address is not yet credited against an existing readable
record, the workflow's credit step writes exactly the appended user and the
incremented point total. -/
theorem credit_step_of_not_credited (db : ReferralDb) (x code ts : String)
    (r : ReferralRecord) (hr : db code = .valid r)
    (hany : r.referred_users.any (fun u => u.phone_number == x) = false)
    (c : String) :
    referral_credit_step db x code ts c =
      (if c == code then
        StoredReferral.valid
          { r with
            referred_users := r.referred_users ++ [⟨x, ts⟩],
            total_points := r.total_points + 1 }
      else db c) := by
  have hch : _check_existing_referral db x code = false := by
    unfold _check_existing_referral get_referral_by_code
    rw [hr]
    exact hany
  unfold referral_credit_step
  rw [hch]
  simp only [Bool.false_eq_true, if_false]
  exact increment_valid_pointwise db code x ts r hr c

/-- A concrete stored referral record used to witness the ledger theorems. -/
def sampleReferralRecord : ReferralRecord :=
  { total_points := 3
    referrer_id := some "300"
    referrer_name := some "R"
    referrer_email := some "r@x.com"
    referrer_phone := some "300"
    referral_code := some "ABCDEF"
    referred_users := [⟨"111", "t0"⟩]
    campaign_id := some "QTMR" }

/-- A concrete referral table holding only `sampleReferralRecord`. -/
def sampleReferralDb : ReferralDb :=
  fun c => if c == "ABCDEF" then .valid sampleReferralRecord else .missing

/-- C1: the credit check reports already-credited whenever the record is
missing, is malformed (reading it raises), or its referred-user list
already contains the address by exact match; a `true` check makes the
workflow's credit step leave the store unchanged; and after any single
credit step a repeated credit step for the same address changes nothing, so
`total_points` is unchanged across repeated attempts. -/
theorem referral_credit_fail_closed :
    ∀ (db : ReferralDb) (x code ts : String),
      (db code = .missing → _check_existing_referral db x code = true) ∧
      (db code = .malformed → _check_existing_referral db x code = true) ∧
      (∀ r : ReferralRecord, db code = .valid r →
        (∃ u ∈ r.referred_users, u.phone_number = x) →
        _check_existing_referral db x code = true) ∧
      (_check_existing_referral db x code = true →
        referral_credit_step db x code ts = db) ∧
      (∀ ts2 c,
        referral_credit_step (referral_credit_step db x code ts) x code ts2 c =
          referral_credit_step db x code ts c) := by
  intro db x code ts
  have skip_any : ∀ (d : ReferralDb) (ts' : String),
      _check_existing_referral d x code = true →
      referral_credit_step d x code ts' = d := by
    intro d ts' h
    unfold referral_credit_step
    rw [h]
    simp
  have check_false : _check_existing_referral db x code = false →
      ∃ r, db code = .valid r ∧
        r.referred_users.any (fun u => u.phone_number == x) = false := by
    intro h
    unfold _check_existing_referral get_referral_by_code at h
    cases hdb : db code with
    | missing => rw [hdb] at h; simp at h
    | malformed => rw [hdb] at h; simp at h
    | valid r =>
      rw [hdb] at h
      simp only at h
      exact ⟨r, rfl, h⟩
  refine ⟨?_, ?_, ?_, skip_any db ts, ?_⟩
  · intro h
    unfold _check_existing_referral get_referral_by_code
    rw [h]
  · intro h
    unfold _check_existing_referral get_referral_by_code
    rw [h]
  · intro r hr hu
    unfold _check_existing_referral get_referral_by_code
    rw [hr]
    obtain ⟨u, hmem, hx⟩ := hu
    simp only [List.any_eq_true]
    exact ⟨u, hmem, by simp [hx]⟩
  · intro ts2 c
    by_cases hch : _check_existing_referral db x code = true
    · rw [skip_any db ts hch, skip_any db ts2 hch]
    · have hch' : _check_existing_referral db x code = false := by
        simpa using hch
      obtain ⟨r, hr, hany⟩ := check_false hch'
      have hstep := credit_step_of_not_credited db x code ts r hr hany
      have hstep_code :
          referral_credit_step db x code ts code =
            .valid { r with
              referred_users := r.referred_users ++ [⟨x, ts⟩],
              total_points := r.total_points + 1 } := by
        rw [hstep code]
        simp
      have hcheck2 :
          _check_existing_referral (referral_credit_step db x code ts) x code =
            true := by
        unfold _check_existing_referral get_referral_by_code
        rw [hstep_code]
        simp [List.any_append]
      rw [skip_any _ ts2 hcheck2]

/-- C1 witness: in the sample table, the already-listed address `"111"` is
reported as credited and a repeated credit step for it leaves the stored
entry unchanged. -/
theorem referral_credit_fail_closed_witness :
    referral_credit_step sampleReferralDb "111" "ABCDEF" "t2" = sampleReferralDb := by
  exact (referral_credit_fail_closed sampleReferralDb "111" "ABCDEF" "t2").2.2.2.1
    (by decide)

/-- C2: one call to the crediting operation on a code with an existing
stored record appends exactly one entry — the address plus a timestamp — to
the record's referred-user list and increases the stored `total_points` by
exactly one, leaving every other code's entry unchanged. -/
theorem increment_referral_count_spec :
    ∀ (db : ReferralDb) (code x ts : String) (r : ReferralRecord),
      db code = .valid r →
      ∀ c, _increment_referral_count db code x ts c =
        (if c == code then
          StoredReferral.valid
            { r with
              referred_users := r.referred_users ++ [⟨x, ts⟩],
              total_points := r.total_points + 1 }
        else db c) := by
  intro db code x ts r hr c
  exact increment_valid_pointwise db code x ts r hr c

/-- C2 witness: crediting the fresh address `"222"` against the sample
record appends exactly `("222", "t1")` and moves `total_points` from 3 to
4. -/
theorem increment_referral_count_spec_witness :
    _increment_referral_count sampleReferralDb "ABCDEF" "222" "t1" "ABCDEF" =
      .valid
        { total_points := 4
          referrer_id := some "300"
          referrer_name := some "R"
          referrer_email := some "r@x.com"
          referrer_phone := some "300"
          referral_code := some "ABCDEF"
          referred_users := [⟨"111", "t0"⟩, ⟨"222", "t1"⟩]
          campaign_id := some "QTMR" } := by
  have h := increment_referral_count_spec sampleReferralDb "ABCDEF" "222" "t1"
    sampleReferralRecord (by decide) "ABCDEF"
  simpa [sampleReferralRecord] using h

/-! Customer store and identity resolution, from `CustomerDataBase`
(`database/customer.py`) and `WhatsappBot._get_or_create_customer`
(`bot/whatsapp_bot.py` lines 160-252). -/

/-- Default classification and spend for new customers
(`bot/whatsapp_bot.py` lines 36-37). -/
def DEFAULT_CUSTOMER_TYPE : String := "D2C"

def DEFAULT_TOTAL_SPEND : Nat := 0

/-- A customer record.  The pydantic `CustomerSchema` module is not among
the repository's files; its fields are reconstructed from their uses in
`whatsapp_bot.py` and `customer.py`.  Modelled from the spec: fields
omitted at construction take the defaults the spec gives (classification
defaulting to the consumer default, active=true, escalation=false,
spend=0). -/
structure CustomerSchema where
  phone_number : String
  customer_name : Option String
  email : Option String
  customer_quickbook_id : Option String
  customer_type : Option String
  company_name : Option String
  address : Option String
  socials : Option (List String)
  interest_groups : Option (List String)
  total_spend : Nat
  is_active : Bool
  escalation_status : Bool
deriving DecidableEq

/-- An update payload for `update_customer`: `none` stands for a key that is
absent from the dict or holds Python `None` (both leave the field alone
after cleaning). -/
structure CustomerUpdates where
  customer_name : Option String
  email : Option String
  customer_quickbook_id : Option String
  customer_type : Option String
  company_name : Option String
  address : Option String
  socials : Option (List String)
  interest_groups : Option (List String)
  total_spend : Option Nat
  is_active : Option Bool
  escalation_status : Option Bool
deriving DecidableEq

/-- The blank filter `v not in (None, [], "")` on a string value. -/
def cleanStr : Option String → Option String
  | none => none
  | some s => if s == "" then none else some s

/-- The blank filter `v not in (None, [], "")` on a list value. -/
def cleanList : Option (List String) → Option (List String)
  | none => none
  | some l => if l.isEmpty then none else some l

/-- Applies one cleaned string update: a non-blank value overwrites, a blank
value keeps the stored field. -/
def applyStr (old upd : Option String) : Option String :=
  match cleanStr upd with
  | some s => some s
  | none => old

/-- Applies one cleaned list update. -/
def applyList (old upd : Option (List String)) : Option (List String) :=
  match cleanList upd with
  | some l => some l
  | none => old

/-- Embeds `CustomerDataBase.update_customer` (`database/customer.py` lines
32-46): blank values (`None`, `[]`, `""`) are dropped from the payload,
`escalation_status` is popped unconditionally, and the remaining keys
overwrite the stored record.  Numbers and booleans are never blank (Python
`False` and `0` are unequal to each of `None`, `[]`, `""`). -/
def update_customer (cd : CustomerSchema) (u : CustomerUpdates) :
    CustomerSchema :=
  { cd with
    customer_name := applyStr cd.customer_name u.customer_name
    email := applyStr cd.email u.email
    customer_quickbook_id :=
      applyStr cd.customer_quickbook_id u.customer_quickbook_id
    customer_type := applyStr cd.customer_type u.customer_type
    company_name := applyStr cd.company_name u.company_name
    address := applyStr cd.address u.address
    socials := applyList cd.socials u.socials
    interest_groups := applyList cd.interest_groups u.interest_groups
    total_spend := u.total_spend.getD cd.total_spend
    is_active := u.is_active.getD cd.is_active }

/-- Profile Source A's payload: the fields of
`QuickBookCustomer.get_customer_with_type_by_phone` that
`_get_or_create_customer` reads (name, email, external id, classification,
organization, active). -/
structure QuickBookCustomerFragment where
  customer_name : Option String
  email : Option String
  customer_quickbook_id : Option String
  customer_type : Option String
  company_name : Option String
  is_active : Bool
deriving DecidableEq

/-- The dict `customer.dict()` passed to `update_customer` on the merge
path. -/
def qbToUpdates (c : QuickBookCustomerFragment) : CustomerUpdates :=
  { customer_name := c.customer_name
    email := c.email
    customer_quickbook_id := c.customer_quickbook_id
    customer_type := c.customer_type
    company_name := c.company_name
    address := none
    socials := none
    interest_groups := none
    total_spend := none
    is_active := some c.is_active
    escalation_status := none }

/-- Profile Source B's payload: the Shopify fields `_get_or_create_customer`
reads (`displayName`, `defaultEmailAddress.email`, the `defaultAddress`
parts, `totalSpent`). -/
structure ShopifyCustomerFragment where
  displayName : Option String
  email : Option String
  address1 : Option String
  city : Option String
  province : Option String
  country : Option String
  zip : Option String
  totalSpent : Option Nat
deriving DecidableEq

/-- Python truthiness filter of the address-part comprehension: keeps parts
that are neither `None` nor `""`. -/
def truthyParts (parts : List (Option String)) : List String :=
  (parts.filterMap id).filter (fun s => !(s == ""))

/-- The comma-joined address, `None` when every part is falsy (Python
`", ".join([...]) or None`). -/
def joinAddressParts (parts : List (Option String)) : Option String :=
  match truthyParts parts with
  | [] => none
  | ps => some (String.intercalate ", " ps)

/-- Python `x or default` on an optional number: `None` and `0` both fall
back to the default. -/
def pyOrNat (v : Option Nat) (d : Nat) : Nat :=
  match v with
  | none => d
  | some n => if n == 0 then d else n

/-- The record built on the Shopify path of `_get_or_create_customer`
(`bot/whatsapp_bot.py` lines 207-220). -/
def customerFromShopify (phone : String) (sc : ShopifyCustomerFragment) :
    CustomerSchema :=
  { phone_number := phone
    customer_name := sc.displayName
    email := sc.email
    customer_quickbook_id := none
    customer_type := some DEFAULT_CUSTOMER_TYPE
    company_name := none
    address := joinAddressParts [sc.address1, sc.city, sc.province, sc.country, sc.zip]
    socials := none
    interest_groups := none
    total_spend := pyOrNat sc.totalSpent DEFAULT_TOTAL_SPEND
    is_active := true
    escalation_status := false }

/-- The record built on the QuickBooks creation path of
`_get_or_create_customer` (`bot/whatsapp_bot.py` lines 189-197); fields the
constructor omits take the schema defaults. -/
def customerFromQuickbooks (phone : String) (c : QuickBookCustomerFragment) :
    CustomerSchema :=
  { phone_number := phone
    customer_name := c.customer_name
    email := c.email
    customer_quickbook_id := c.customer_quickbook_id
    customer_type := c.customer_type
    company_name := c.company_name
    address := none
    socials := none
    interest_groups := none
    total_spend := DEFAULT_TOTAL_SPEND
    is_active := c.is_active
    escalation_status := false }

/-- The minimal record built when neither external source matches
(`bot/whatsapp_bot.py` lines 225-231 and the Shopify-failure fallback at
lines 235-241, which build the same record). -/
def minimalCustomer (phone : String) : CustomerSchema :=
  { phone_number := phone
    customer_name := none
    email := none
    customer_quickbook_id := none
    customer_type := some DEFAULT_CUSTOMER_TYPE
    company_name := none
    address := none
    socials := none
    interest_groups := none
    total_spend := DEFAULT_TOTAL_SPEND
    is_active := true
    escalation_status := false }

/-- Python truthiness of an optional string field: blank when `None` or
`""`. -/
def blankStr : Option String → Bool
  | none => true
  | some s => s == ""

/-- The resync condition of `_get_or_create_customer` (`bot/whatsapp_bot.py`
lines 170-178): any of the listed fields falsy. -/
def incompleteCustomer (cd : CustomerSchema) : Bool :=
  blankStr cd.customer_name || blankStr cd.email ||
  blankStr cd.customer_quickbook_id || blankStr cd.customer_type ||
  blankStr cd.company_name || !cd.is_active || cd.phone_number == ""

/-- Outcome of the Shopify lookup: found, not found, or raised (the `except`
branch). -/
inductive ShopifyLookup
  | found (sc : ShopifyCustomerFragment)
  | notFound
  | failed
deriving DecidableEq

/-- Embeds `WhatsappBot._get_or_create_customer` (`bot/whatsapp_bot.py`
lines 160-252) as a function of the local record and the two external
lookup results: resync/merge from QuickBooks when the local record is
absent or incomplete, else create from QuickBooks, else from Shopify
(lookup failure treated as not found), else the minimal record. -/
def _get_or_create_customer (phone : String)
    (local_record : Option CustomerSchema)
    (qb : Option QuickBookCustomerFragment)
    (shopify : ShopifyLookup) : CustomerSchema :=
  match local_record with
  | some cd =>
    if incompleteCustomer cd then
      match qb with
      | some c => update_customer cd (qbToUpdates c)
      | none => cd
    else cd
  | none =>
    match qb with
    | some c => customerFromQuickbooks phone c
    | none =>
      match shopify with
      | .found sc => customerFromShopify phone sc
      | .notFound => minimalCustomer phone
      | .failed => minimalCustomer phone

/-- Python `x or 0` on an optional count coincides with "the value, or 0 if
absent". -/
theorem pyOrNat_zero (v : Option Nat) : pyOrNat v 0 = v.getD 0 := by
  cases v with
  | none => rfl
  | some n =>
    by_cases h : n = 0
    · simp [pyOrNat, h]
    · simp [pyOrNat, h]

/-- C5: with a local record whose email is blank and Profile Source A
(QuickBooks) returning a non-blank email, the resolved profile's email is
Source A's value; blank fields of Source A's payload never overwrite
existing local data, and fields Source A does not carry are preserved; and
when Source A has no match, no local record exists and Profile Source B
(Shopify) matches, the created profile's classification is the consumer
default and its spend is Source B's `totalSpent`, or 0 if absent. -/
theorem identity_resolution_merge_precedence :
    ∀ (phone : String) (cd : CustomerSchema) (c : QuickBookCustomerFragment)
      (sh : ShopifyLookup) (e : String),
      (blankStr cd.email = true → c.email = some e → e ≠ "" →
        (_get_or_create_customer phone (some cd) (some c) sh).email = some e) ∧
      (cleanStr c.customer_name = none →
        (update_customer cd (qbToUpdates c)).customer_name =
          cd.customer_name) ∧
      (cleanStr c.email = none →
        (update_customer cd (qbToUpdates c)).email = cd.email) ∧
      (cleanStr c.customer_quickbook_id = none →
        (update_customer cd (qbToUpdates c)).customer_quickbook_id =
          cd.customer_quickbook_id) ∧
      (cleanStr c.customer_type = none →
        (update_customer cd (qbToUpdates c)).customer_type =
          cd.customer_type) ∧
      (cleanStr c.company_name = none →
        (update_customer cd (qbToUpdates c)).company_name =
          cd.company_name) ∧
      (update_customer cd (qbToUpdates c)).address = cd.address ∧
      (update_customer cd (qbToUpdates c)).socials = cd.socials ∧
      (update_customer cd (qbToUpdates c)).total_spend = cd.total_spend ∧
      (∀ sc : ShopifyCustomerFragment,
        (_get_or_create_customer phone none none (.found sc)).customer_type =
          some DEFAULT_CUSTOMER_TYPE ∧
        (_get_or_create_customer phone none none (.found sc)).total_spend =
          sc.totalSpent.getD 0) := by
  intro phone cd c sh e
  refine ⟨?_, ?_, ?_, ?_, ?_, ?_, ?_, ?_, ?_, ?_⟩
  · intro hblank hce hne
    have hinc : incompleteCustomer cd = true := by
      unfold incompleteCustomer
      rw [hblank]
      simp
    have heq : (e == "") = false := by
      simp [hne]
    simp [_get_or_create_customer, hinc, update_customer, qbToUpdates,
      applyStr, cleanStr, hce, heq]
  · intro h
    simp [update_customer, qbToUpdates, applyStr, h]
  · intro h
    simp [update_customer, qbToUpdates, applyStr, h]
  · intro h
    simp [update_customer, qbToUpdates, applyStr, h]
  · intro h
    simp [update_customer, qbToUpdates, applyStr, h]
  · intro h
    simp [update_customer, qbToUpdates, applyStr, h]
  · simp [update_customer, qbToUpdates, applyStr, cleanStr]
  · simp [update_customer, qbToUpdates, applyList, cleanList]
  · simp [update_customer, qbToUpdates]
  · intro sc
    refine ⟨rfl, ?_⟩
    simp only [_get_or_create_customer, customerFromShopify]
    exact pyOrNat_zero sc.totalSpent

/-- C10: every call to `update_customer` leaves the stored escalation flag
(and the phone-number key) unchanged, and blank update values — `None`,
`""`, `[]` — never erase an existing field. -/
theorem update_customer_frame :
    ∀ (cd : CustomerSchema) (u : CustomerUpdates),
      (update_customer cd u).escalation_status = cd.escalation_status ∧
      (update_customer cd u).phone_number = cd.phone_number ∧
      (cleanStr u.customer_name = none →
        (update_customer cd u).customer_name = cd.customer_name) ∧
      (cleanStr u.email = none →
        (update_customer cd u).email = cd.email) ∧
      (cleanStr u.customer_quickbook_id = none →
        (update_customer cd u).customer_quickbook_id =
          cd.customer_quickbook_id) ∧
      (cleanStr u.customer_type = none →
        (update_customer cd u).customer_type = cd.customer_type) ∧
      (cleanStr u.company_name = none →
        (update_customer cd u).company_name = cd.company_name) ∧
      (cleanStr u.address = none →
        (update_customer cd u).address = cd.address) ∧
      (cleanList u.socials = none →
        (update_customer cd u).socials = cd.socials) ∧
      (cleanList u.interest_groups = none →
        (update_customer cd u).interest_groups = cd.interest_groups) := by
  intro cd u
  refine ⟨rfl, rfl, ?_, ?_, ?_, ?_, ?_, ?_, ?_, ?_⟩
  all_goals intro h
  all_goals simp [update_customer, applyStr, applyList, h]

/-! Intent routing and the per-message workflow, from
`WhatsappBot._route_to_agent` and `WhatsappBot.execute_workflow`
(`bot/whatsapp_bot.py`) and `BASE_INSTRUCTIONS`
(`src/whatsap_agent/agents/conversation_intent_router/instructions.py`). -/

/-- The intent categories of the router's fixed output schema. -/
inductive RouterIntent
  | greeting
  | d2c_support
  | b2b_support
deriving DecidableEq

/-- Modelled from the spec: the intent classification itself is a
language-model call, not code; its mandatory deterministic rules are the
Customer Type Override and Agent Mapping of `BASE_INSTRUCTIONS` lines
20-33 — greeting maps to `CustomerGreetingAgent`; for support requests a
`"business"` customer type forces `B2BBusinessSupportAgent`, a
`"consumer"` customer type forces `D2CCustomerSupportAgent`, and a
missing/unclear customer type defaults to `D2CCustomerSupportAgent`. -/
def router_next_agent (intent : RouterIntent) (customer_type : Option String) :
    String :=
  match intent with
  | .greeting => "CustomerGreetingAgent"
  | _ =>
    match customer_type with
    | some "business" => "B2BBusinessSupportAgent"
    | some "consumer" => "D2CCustomerSupportAgent"
    | _ => "D2CCustomerSupportAgent"

/-- The three handlers of `_route_to_agent`. -/
inductive Handler
  | greetingHandler
  | consumerSupportHandler
  | businessSupportHandler
deriving DecidableEq

/-- Embeds the dispatch chain of `WhatsappBot._route_to_agent`
(`bot/whatsapp_bot.py` lines 288-307): the three known handler names map to
their handlers, any other name raises `ValueError` (no fallback, no
retry). -/
def route_dispatch (next_agent : String) : Except String Handler :=
  if next_agent == "CustomerGreetingAgent" then .ok .greetingHandler
  else if next_agent == "D2CCustomerSupportAgent" then .ok .consumerSupportHandler
  else if next_agent == "B2BBusinessSupportAgent" then .ok .businessSupportHandler
  else .error next_agent

/-- C4: for every support-class (non-greeting) intent, a customer tagged
`"business"` is dispatched to the business-support handler and a customer
tagged `"consumer"` or untagged to the consumer-support handler; in
particular a message classified direct-consumer-support for a `"business"`
customer lands on the business-support handler, overriding the raw
classification. -/
theorem routing_business_override :
    (∀ i : RouterIntent, i ≠ RouterIntent.greeting →
      route_dispatch (router_next_agent i (some "business")) =
        .ok Handler.businessSupportHandler ∧
      route_dispatch (router_next_agent i (some "consumer")) =
        .ok Handler.consumerSupportHandler ∧
      route_dispatch (router_next_agent i none) =
        .ok Handler.consumerSupportHandler) ∧
    route_dispatch (router_next_agent RouterIntent.d2c_support (some "business")) =
      .ok Handler.businessSupportHandler := by
  refine ⟨?_, rfl⟩
  intro i hi
  cases i with
  | greeting => exact absurd rfl hi
  | d2c_support => exact ⟨rfl, rfl, rfl⟩
  | b2b_support => exact ⟨rfl, rfl, rfl⟩

/-! The per-message workflow, from `WhatsappBot.execute_workflow`
(`bot/whatsapp_bot.py` lines 49-118), modelled as the list of chat-history
appends, dashboard broadcasts and outbound sends it performs, in program
order.  Reads (history fetch, customer lookup) perform none of these
effects; the collaborators' replies are inputs of the model. -/

/-- A message as logged or broadcast (`MessageSchema` content, kind and
sender; the timestamp is irrelevant to the claims and omitted). -/
structure LoggedMessage where
  content : String
  message_type : String
  sender : String
deriving DecidableEq

/-- One observable side effect of the workflow. -/
inductive Effect
  | history_append (phone : String) (m : LoggedMessage)
  | broadcast (phone : String) (m : LoggedMessage)
  | outbound_send (phone : String) (text : String)
deriving DecidableEq

def isHistoryAppend : Effect → Bool
  | .history_append _ _ => true
  | _ => false

def isOutboundSend : Effect → Bool
  | .outbound_send _ _ => true
  | _ => false

/-- The collaborators' responses consumed by one run of the workflow: the
stored escalation flag, the router's chosen handler name, each handler
agent's reply, and the referral workflow's reply and side effects. -/
structure WorkflowEnv where
  escalated : Bool
  router_next_agent : String
  greeting_reply : String
  d2c_reply : String
  b2b_reply : String
  referral_reply : String
  referral_effects : List Effect

/-- Embeds the routed-response part of `WhatsappBot._route_to_agent`: the
dispatched agent's reply, or the `ValueError` for an unknown handler
name. -/
def route_to_agent_response (env : WorkflowEnv) : Except String String :=
  match route_dispatch env.router_next_agent with
  | .ok .greetingHandler => .ok env.greeting_reply
  | .ok .consumerSupportHandler => .ok env.d2c_reply
  | .ok .businessSupportHandler => .ok env.b2b_reply
  | .error e => .error e

/-- Embeds `WhatsappBot.execute_workflow`: log and broadcast the inbound
customer message; if the customer is escalated stop there; otherwise take
the referral path when `_extract_codes` finds a campaign code and the agent
path otherwise, then log, broadcast and send the reply.  Any raised error
is caught at the top level and the message is dropped with no further
effect. -/
def execute_workflow (env : WorkflowEnv) (phone raw_message : String)
    (is_voice : Bool) : List Effect :=
  let inbound : List Effect :=
    [ .history_append phone
        ⟨raw_message, classify_message_type is_voice raw_message, "customer"⟩,
      .broadcast phone
        ⟨raw_message, ws_message_type "customer" raw_message, "customer"⟩ ]
  if env.escalated then inbound
  else
    let referral : Bool := (_extract_codes raw_message).1.isSome
    let response : Except String String :=
      if referral then .ok env.referral_reply
      else route_to_agent_response env
    match response with
    | .error _ => inbound
    | .ok r =>
      (inbound ++ (if referral then env.referral_effects else [])) ++
        [ .history_append phone ⟨r, agent_log_message_type r, "agent"⟩,
          .broadcast phone ⟨r, ws_message_type "agent" r, "agent"⟩,
          .outbound_send phone r ]

/-- C6: when the resolved customer's escalation flag is true, processing an
inbound message performs exactly one chat-history append — the inbound
customer message — and zero outbound sends: no agent reply is generated,
logged or dispatched. -/
theorem escalation_short_circuit :
    ∀ (env : WorkflowEnv) (phone m : String) (v : Bool),
      env.escalated = true →
      execute_workflow env phone m v =
        [ .history_append phone
            ⟨m, classify_message_type v m, "customer"⟩,
          .broadcast phone ⟨m, ws_message_type "customer" m, "customer"⟩ ] ∧
      (execute_workflow env phone m v).countP (fun e => isHistoryAppend e) = 1 ∧
      (execute_workflow env phone m v).countP (fun e => isOutboundSend e) = 0 := by
  intro env phone m v h
  have he : execute_workflow env phone m v =
      [ .history_append phone ⟨m, classify_message_type v m, "customer"⟩,
        .broadcast phone ⟨m, ws_message_type "customer" m, "customer"⟩ ] := by
    unfold execute_workflow
    rw [h]
    simp
  refine ⟨he, ?_, ?_⟩
  · rw [he]
    rfl
  · rw [he]
    rfl

/-- C6 witness: an escalated customer's `"hello"` produces exactly the
inbound append and broadcast. -/
theorem escalation_short_circuit_witness :
    execute_workflow
      ⟨true, "CustomerGreetingAgent", "gr", "dr", "br", "rr", []⟩
      "555" "hello" false =
      [ .history_append "555" ⟨"hello", "text", "customer"⟩,
        .broadcast "555" ⟨"hello", "text", "customer"⟩ ] := by
  have h := (escalation_short_circuit
    ⟨true, "CustomerGreetingAgent", "gr", "dr", "br", "rr", []⟩
    "555" "hello" false rfl).1
  simpa using h

/-- C9: when the router names an unknown handler, the dispatch raises, the
error is caught at the workflow's top level, the message is dropped and the
sender receives no reply: no agent history append, no agent broadcast, no
outbound send. -/
theorem unknown_handler_silent_drop :
    ∀ (env : WorkflowEnv) (phone m : String) (v : Bool),
      env.escalated = false →
      (_extract_codes m).1 = none →
      env.router_next_agent ≠ "CustomerGreetingAgent" →
      env.router_next_agent ≠ "D2CCustomerSupportAgent" →
      env.router_next_agent ≠ "B2BBusinessSupportAgent" →
      route_to_agent_response env = .error env.router_next_agent ∧
      execute_workflow env phone m v =
        [ .history_append phone
            ⟨m, classify_message_type v m, "customer"⟩,
          .broadcast phone ⟨m, ws_message_type "customer" m, "customer"⟩ ] ∧
      (execute_workflow env phone m v).countP (fun e => isOutboundSend e) = 0 := by
  intro env phone m v hesc hext h1 h2 h3
  have hd : route_dispatch env.router_next_agent =
      .error env.router_next_agent := by
    unfold route_dispatch
    rw [if_neg (by simpa using h1), if_neg (by simpa using h2),
      if_neg (by simpa using h3)]
  have hr : route_to_agent_response env = .error env.router_next_agent := by
    unfold route_to_agent_response
    rw [hd]
  have he : execute_workflow env phone m v =
      [ .history_append phone ⟨m, classify_message_type v m, "customer"⟩,
        .broadcast phone ⟨m, ws_message_type "customer" m, "customer"⟩ ] := by
    unfold execute_workflow
    rw [hesc]
    simp [hext, hr]
  refine ⟨hr, he, ?_⟩
  rw [he]
  rfl

/-- C9 witness: a router decision `"SalesAgent"` on a plain `"hi"` message
is dropped with only the inbound append and broadcast. -/
theorem unknown_handler_silent_drop_witness :
    execute_workflow ⟨false, "SalesAgent", "gr", "dr", "br", "rr", []⟩
      "555" "hi" false =
      [ .history_append "555" ⟨"hi", "text", "customer"⟩,
        .broadcast "555" ⟨"hi", "text", "customer"⟩ ] := by
  have h := (unknown_handler_silent_drop
    ⟨false, "SalesAgent", "gr", "dr", "br", "rr", []⟩
    "555" "hi" false rfl (by decide) (by decide) (by decide) (by decide)).2.1
  simpa using h

end WhatsappAgent
